import Mathlib

/-!
Shallow embedding of the static-analysis core of the
AI-Powered Code Documentation Review Agent repository
(files `backend/services/defect_classifier.py` and
`backend/services/code_parser.py`).

Modelling conventions: Python floats are rationals (`ℚ`), Python ints are
`Nat`/`Int`, Python strings are `String` or `List Char`.  External
libraries (CPython's `ast` parser, the `re` regex engine, scikit-learn's
vectorizer and RandomForest) are abstracted as oracles carried in context
structures; every piece of logic written in the repository itself is
embedded concretely.
-/

/-- One entry of the `flagged_sections` list built in
`DefectClassifier.analyze` (defect_classifier.py lines 247-253): a record
with 1-based line number, stripped source text, message, severity tag and
the originating pattern. -/
structure FlaggedSection where
  line : Nat
  code : String
  issue : String
  severity : String
  patternId : String
deriving Repr, DecidableEq

/-- Result record of `DefectClassifier.analyze` (dataclass
`DefectPrediction`, defect_classifier.py lines 14-21). -/
structure DefectPrediction where
  risk_score : ℚ
  risk_level : String
  flagged_sections : List FlaggedSection
  confidence : ℚ
  issues_detected : List String
deriving Repr, DecidableEq

/-- Severity-weight lookup with default `0.2`, i.e.
`severity_weights.get(section.get("severity", "info"), 0.2)` with the
table `{error: 1.0, security: 0.9, warning: 0.5, info: 0.2,
suggestion: 0.1}` (defect_classifier.py lines 263-267). -/
def sevWeight (sev : String) : ℚ :=
  if sev = "error" then 1
  else if sev = "security" then 9/10
  else if sev = "warning" then 1/2
  else if sev = "info" then 1/5
  else if sev = "suggestion" then 1/10
  else 1/5

/-- Python's `round(x, 3)` modelled over `ℚ` via Mathlib's `round`.
CPython rounds half-to-even on the underlying binary float; the two
functions agree except at exact half-thousandth ties, which no claim in
this development exercises. -/
def round3 (q : ℚ) : ℚ := (round (q * 1000) : ℤ) / 1000

/-- The local variable `risk_score` of `DefectClassifier.analyze` right
after clamping (defect_classifier.py lines 265-274): severity-weighted
pattern score accumulated by a fold, normalised by `min(1.0, ·/5)`,
combined as `0.4*ml + 0.6*pattern` and clamped to `[0,1]`. -/
def clampedRisk (flagged : List FlaggedSection) (mlScore : ℚ) : ℚ :=
  let patternRaw : ℚ := flagged.foldl (fun acc s => acc + sevWeight s.severity) 0
  let patternScore : ℚ := min 1 (patternRaw / 5)
  min 1 (max 0 (2/5 * mlScore + 3/5 * patternScore))

/-- Score-fusion tail of `DefectClassifier.analyze`
(defect_classifier.py lines 262-290): the clamped combined score is
thresholded into a level (on the clamped, unrounded value, lines
277-282) and returned with the score rounded to three decimals and
confidence `0.8`/`0.5` by trained state (lines 284-290). -/
def fuseScores (flagged : List FlaggedSection) (mlScore : ℚ) (isTrained : Bool)
    (issues : List String) : DefectPrediction :=
  let riskClamped : ℚ := clampedRisk flagged mlScore
  let riskLevel : String :=
    if riskClamped ≥ 7/10 then "high"
    else if riskClamped ≥ 2/5 then "medium"
    else "low"
  { risk_score := round3 riskClamped
    risk_level := riskLevel
    flagged_sections := flagged
    confidence := if isTrained then 4/5 else 1/2
    issues_detected := issues }

/-- Process state of `DefectClassifier`: the `_is_trained` flag plus
oracles for the external components (the fitted scikit-learn pipeline's
class-1 probability, the regex anti-pattern scan of lines 240-253, and
the code-smell detector of lines 292-317). -/
structure ClassifierState where
  is_trained : Bool
  predictProba1 : String → ℚ
  scanFlagged : String → List FlaggedSection
  smellIssues : String → List String

/-- Embedding of `DefectClassifier._ml_classify`
(defect_classifier.py lines 319-329): the neutral constant `0.5` when
the component is untrained, otherwise the model's class-1 probability.
The function is total, modelling that the Python code never raises
(its internal `try` returns `0.5` on library failure). -/
def mlClassify (st : ClassifierState) (code : String) : ℚ :=
  if st.is_trained then st.predictProba1 code else 1/2

/-- Embedding of `DefectClassifier.analyze`
(defect_classifier.py lines 233-290): regex pattern scan producing
flagged sections and per-match issue strings, code-smell issues,
ML classification, then score fusion. -/
def analyzeDefects (st : ClassifierState) (code : String) : DefectPrediction :=
  let flagged := st.scanFlagged code
  let issues := (flagged.map fun s => "Line " ++ toString s.line ++ ": " ++ s.issue)
      ++ st.smellIssues code
  fuseScores flagged (mlClassify st code) st.is_trained issues

/-- The pattern score exactly as claim C1 states it: `min(1, (sum of
severity weights over the flagged sections) / 5)`. -/
def claimPatternScore (flagged : List FlaggedSection) : ℚ :=
  min 1 (((flagged.map fun s => sevWeight s.severity).sum) / 5)

/-- Concrete untrained classifier state (training failed / not run). -/
def untrainedState : ClassifierState :=
  ⟨false, fun _ => 0, fun _ => [], fun _ => []⟩

/-- Concrete trained classifier state with a fixed model probability. -/
def trainedState : ClassifierState :=
  ⟨true, fun _ => 3/10, fun _ => [], fun _ => []⟩

/-- A flagged section of severity `error`, as produced by the bare-except
anti-pattern rule. -/
def errorSection : FlaggedSection :=
  ⟨1, "except:", "Bare except clause catches all exceptions", "error", "except"⟩

-- ======================================================================
-- code_parser.py : complexity over the Python syntax tree
-- ======================================================================

/-- A boolean combinator (`ast.And` / `ast.Or`). -/
inductive BoolOperator where
  | andOp
  | orOp
deriving Repr, DecidableEq

/-- View of a CPython `ast` node as traversed by `ast.walk` in
`CodeParser._calculate_complexity` (code_parser.py lines 240-254).  Only
the node kinds the isinstance tests distinguish are separate
constructors; every other node kind is `otherNode` with its child list.
`boolOpNode` carries its operator: `ast.iter_child_nodes` (and hence
`ast.walk`) yields that operator object (`ast.And`/`ast.Or`) as a child
node of the `BoolOp`. -/
inductive PyNode where
  | ifNode (children : List PyNode)
  | whileNode (children : List PyNode)
  | forNode (children : List PyNode)
  | exceptHandlerNode (children : List PyNode)
  | boolOpNode (op : BoolOperator) (values : List PyNode)
  | otherNode (children : List PyNode)
deriving Repr

mutual
/-- Total complexity increment contributed by a subtree during the
`ast.walk` loop of `_calculate_complexity`: `If`/`While`/`For`/
`ExceptHandler` add 1, a `BoolOp` with N operands adds N-1, and its
operator child (an `ast.And`/`ast.Or` instance, also visited by the
walk) adds a further 1. -/
def walkSum : PyNode → ℤ
  | .ifNode cs => 1 + walkSumList cs
  | .whileNode cs => 1 + walkSumList cs
  | .forNode cs => 1 + walkSumList cs
  | .exceptHandlerNode cs => 1 + walkSumList cs
  | .boolOpNode _ vs => ((vs.length : ℤ) - 1) + (1 + walkSumList vs)
  | .otherNode cs => walkSumList cs

/-- Sum of `walkSum` over a list of sibling nodes. -/
def walkSumList : List PyNode → ℤ
  | [] => 0
  | n :: ns => walkSum n + walkSumList ns
end

/-- Embedding of `CodeParser._calculate_complexity`
(code_parser.py lines 240-254): base complexity 1 plus the walk
increments, scaled by 5 and capped at 100. -/
def calculate_complexity (tree : PyNode) : ℤ :=
  min 100 ((1 + walkSum tree) * 5)

mutual
/-- The complexity increment claim C3 describes: 1 per conditional,
loop and exception handler, N-1 per N-operand boolean combination,
and nothing else. -/
def branchBoolSum : PyNode → ℤ
  | .ifNode cs => 1 + branchBoolSumList cs
  | .whileNode cs => 1 + branchBoolSumList cs
  | .forNode cs => 1 + branchBoolSumList cs
  | .exceptHandlerNode cs => 1 + branchBoolSumList cs
  | .boolOpNode _ vs => ((vs.length : ℤ) - 1) + branchBoolSumList vs
  | .otherNode cs => branchBoolSumList cs

/-- Sum of `branchBoolSum` over a list of sibling nodes. -/
def branchBoolSumList : List PyNode → ℤ
  | [] => 0
  | n :: ns => branchBoolSum n + branchBoolSumList ns
end

mutual
/-- Number of `BoolOp` nodes in a subtree. -/
def boolOpCount : PyNode → ℤ
  | .ifNode cs => boolOpCountList cs
  | .whileNode cs => boolOpCountList cs
  | .forNode cs => boolOpCountList cs
  | .exceptHandlerNode cs => boolOpCountList cs
  | .boolOpNode _ vs => 1 + boolOpCountList vs
  | .otherNode cs => boolOpCountList cs

/-- Number of `BoolOp` nodes in a list of sibling subtrees. -/
def boolOpCountList : List PyNode → ℤ
  | [] => 0
  | n :: ns => boolOpCount n + boolOpCountList ns
end

/-- The tree of `if a and b: pass` — an `If` whose test is a two-operand
`BoolOp`, wrapped in its `Module`. -/
def demoTree : PyNode :=
  .otherNode [.ifNode [.boolOpNode .andOp [.otherNode [], .otherNode []],
    .otherNode []]]

-- ======================================================================
-- code_parser.py : string utilities and the heuristic estimator
-- ======================================================================

/-- Python `str.count(sub)` on character lists: number of
non-overlapping occurrences, scanning left to right.  (For the empty
needle Python returns `len+1`, which the recursion reproduces.) -/
def countOcc (kw : List Char) (s : List Char) : Nat :=
  match s with
  | [] => if kw.isEmpty then 1 else 0
  | c :: rest =>
    if kw ≠ [] ∧ kw.isPrefixOf (c :: rest) then
      1 + countOcc kw (List.drop kw.length (c :: rest))
    else
      (if kw.isEmpty then 1 else 0) + countOcc kw rest
termination_by s.length
decreasing_by
  · simp only [List.length_drop, List.length_cons]
    rename_i h
    have hk : 1 ≤ kw.length := by
      cases kw with
      | nil => exact absurd rfl h.1
      | cons a l => simp
    omega
  · simp

/-- The fixed control-flow keyword list of
`CodeParser._estimate_complexity` (code_parser.py line 443). -/
def controlFlowKeywords : List String :=
  ["if", "else", "for", "while", "switch", "case", "try", "catch",
   "&&", "||", "?"]

/-- Embedding of `CodeParser._estimate_complexity`
(code_parser.py lines 438-447): start at 1, add the occurrence count of
every keyword in the fixed list, scale by 2, cap at 100. -/
def estimate_complexity (code : String) : ℤ :=
  min 100
    ((controlFlowKeywords.foldl
      (fun acc kw => acc + (countOcc kw.data code.data : ℤ)) 1) * 2)

/-- Python default whitespace (the characters `str.strip()` removes in
the ASCII range; the further Unicode whitespace CPython strips does not
occur in any claim). -/
def isPySpace (c : Char) : Bool :=
  c == ' ' || c == '\t' || c == '\n' || c == '\r' || c == '\x0b' || c == '\x0c'

/-- Python `str.strip()` on character lists. -/
def pyStrip (s : List Char) : List Char :=
  ((s.dropWhile isPySpace).reverse.dropWhile isPySpace).reverse

/-- Python `str.split(sep)` for a one-character separator: splitting the
empty string yields `[[]]` (one empty field), exactly as in CPython. -/
def splitOnChar (sep : Char) : List Char → List (List Char)
  | [] => [[]]
  | c :: rest =>
    if c == sep then [] :: splitOnChar sep rest
    else
      match splitOnChar sep rest with
      | [] => [[c]]
      | l :: ls => (c :: l) :: ls

/-- The `lines = code.split('\n')` of the parser and metrics code. -/
def pyLines (code : String) : List (List Char) := splitOnChar '\n' code.data

/-- A blank line: `not line.strip()` (code_parser.py line 455). -/
def isBlankLine (l : List Char) : Bool := (pyStrip l).isEmpty

/-- A comment line: `line.strip().startswith(('#', '//', '/*', '*'))`
(code_parser.py line 456). -/
def isCommentLine (l : List Char) : Bool :=
  let t := pyStrip l
  ['#'].isPrefixOf t || ['/', '/'].isPrefixOf t ||
    ['/', '*'].isPrefixOf t || ['*'].isPrefixOf t

-- ======================================================================
-- code_parser.py : data model (dataclasses FunctionInfo/ClassInfo/ParseResult)
-- ======================================================================

/-- One parameter record as built in `_extract_python_function`
(code_parser.py lines 134-149): the Python dict
`{'name': ..., 'type': ..., 'default': ...}`. -/
structure ParamInfo where
  name : String
  type : Option String
  default : Option String
deriving Repr, DecidableEq

/-- Dataclass `FunctionInfo` (code_parser.py lines 10-24). -/
structure FunctionInfo where
  name : String
  start_line : Nat
  end_line : Nat
  signature : String
  parameters : List ParamInfo
  return_type : Option String
  body : String
  decorators : List String
  docstring : Option String
  is_async : Bool
  is_method : Bool
  class_name : Option String
deriving Repr, DecidableEq

/-- One attribute record of `_extract_python_class`
(code_parser.py lines 213-221). -/
structure AttrInfo where
  name : String
  type : Option String
  line : Nat
deriving Repr, DecidableEq

/-- Dataclass `ClassInfo` (code_parser.py lines 26-36). -/
structure ClassInfo where
  name : String
  start_line : Nat
  end_line : Nat
  bases : List String
  methods : List FunctionInfo
  attributes : List AttrInfo
  docstring : Option String
  decorators : List String
deriving Repr, DecidableEq

/-- One global-variable record of `_parse_python`
(code_parser.py lines 102-109). -/
structure GlobalVar where
  name : String
  line : Nat
  value : String
deriving Repr, DecidableEq

/-- Dataclass `ParseResult` (code_parser.py lines 38-47). -/
structure ParseResult where
  language : String
  functions : List FunctionInfo
  classes : List ClassInfo
  imports : List String
  global_variables : List GlobalVar
  errors : List String
  complexity_score : ℚ
deriving Repr, DecidableEq

-- ======================================================================
-- code_parser.py : the Python extractor (CPython ast abstracted)
-- ======================================================================

/-- One entry of `node.args.args`: the argument name and its rendered
annotation (`ast.unparse(arg.annotation)`), if any. -/
structure PyArg where
  arg : String
  annot : Option String
deriving Repr, DecidableEq

/-- The `node.args` object: positional arguments and the rendered
default expressions, which CPython aligns with the LAST `len(defaults)`
arguments. -/
structure PyArguments where
  args : List PyArg
  defaults : List String
deriving Repr, DecidableEq

/-- View of an `ast.FunctionDef`/`ast.AsyncFunctionDef` node with the
fields `_extract_python_function` reads.  Rendered strings
(`ast.unparse` results, `ast.get_docstring`) are carried as data since
they are produced by the external `ast` library. -/
structure PyFunctionDef where
  name : String
  lineno : Nat
  end_lineno : Nat
  args : PyArguments
  returns : Option String
  decorator_list : List String
  docstring : Option String
  is_async : Bool
deriving Repr, DecidableEq

/-- One statement of a class body, as the isinstance tests of
`_extract_python_class` distinguish them: a (possibly async) function
definition, an annotated assignment to a plain name, or anything else. -/
inductive PyClassBodyItem where
  | funcItem (f : PyFunctionDef)
  | attrItem (name : String) (annot : Option String) (lineno : Nat)
  | otherItem
deriving Repr, DecidableEq

/-- View of an `ast.ClassDef` node with the fields
`_extract_python_class` reads. -/
structure PyClassDef where
  name : String
  lineno : Nat
  end_lineno : Nat
  bases : List String
  body : List PyClassBodyItem
  docstring : Option String
  decorator_list : List String
deriving Repr, DecidableEq

/-- One top-level statement of a module, as the isinstance tests of
`_parse_python` (lines 93-109) distinguish them.  An `assign` carries
the ids of its `ast.Name` targets, its line and the rendered value. -/
inductive PyTopStmt where
  | funcDef (f : PyFunctionDef)
  | classDef (c : PyClassDef)
  | assign (names : List String) (lineno : Nat) (valueRepr : String)
  | otherStmt
deriving Repr, DecidableEq

/-- Outcome of a failed `ast.parse`: a `SyntaxError` with line and
message, or any other exception (both caught in lines 113-118). -/
inductive PyParseError where
  | syntaxError (lineno : Nat) (msg : String)
  | otherError (msg : String)
deriving Repr, DecidableEq

/-- View of a successfully parsed module: its top-level statements, the
names of imports accumulated by the `ast.walk` loop of lines 82-90 (in walk
order), and the tree as seen by `_calculate_complexity`. -/
structure PyModule where
  body : List PyTopStmt
  importsWalk : List String
  walkTree : PyNode

/-- The `lines = code.split('\n')` list as Python strings. -/
def pyLinesStr (code : String) : List String :=
  (pyLines code).map (fun l => String.mk l)

/-- Embedding of `CodeParser._extract_python_function`
(code_parser.py lines 130-195): parameters in declaration order with
defaults aligned to the tail, rendered signature, body text sliced from
the source lines, and method bookkeeping from the optional owning class
name. -/
def extract_python_function (node : PyFunctionDef) (lines : List String)
    (class_name : Option String) : FunctionInfo :=
  let params0 := node.args.args.map
    (fun a => ({ name := a.arg, type := a.annot, default := none } : ParamInfo))
  let offset := params0.length - node.args.defaults.length
  let parameters := params0.take offset ++
    List.zipWith (fun p d => { p with default := some d })
      (params0.drop offset) node.args.defaults
  let return_type := node.returns
  let paramsStr := parameters.map (fun p =>
    p.name ++ (match p.type with | some t => ": " ++ t | none => "")
      ++ (match p.default with | some d => " = " ++ d | none => ""))
  let signature := "def " ++ node.name ++ "(" ++ String.intercalate ", " paramsStr ++ ")"
    ++ (match return_type with | some r => " -> " ++ r | none => "")
  let body := String.intercalate "\n"
    ((lines.drop (node.lineno - 1)).take (node.end_lineno - (node.lineno - 1)))
  { name := node.name
    start_line := node.lineno
    end_line := node.end_lineno
    signature := signature
    parameters := parameters
    return_type := return_type
    body := body
    decorators := node.decorator_list
    docstring := node.docstring
    is_async := node.is_async
    is_method := class_name.isSome
    class_name := class_name }

/-- Embedding of `CodeParser._extract_python_class`
(code_parser.py lines 197-238): methods are the function-definition
items of the body, extracted with `class_name = node.name`; attributes
are the annotated plain-name assignments. -/
def extract_python_class (node : PyClassDef) (lines : List String) : ClassInfo :=
  { name := node.name
    start_line := node.lineno
    end_line := node.end_lineno
    bases := node.bases
    methods := node.body.filterMap (fun item =>
      match item with
      | .funcItem f => some (extract_python_function f lines (some node.name))
      | _ => none)
    attributes := node.body.filterMap (fun item =>
      match item with
      | .attrItem n t l => some ⟨n, t, l⟩
      | _ => none)
    docstring := node.docstring
    decorators := node.decorator_list }

/-- Embedding of `CodeParser._parse_python`
(code_parser.py lines 70-128): on success, extract top-level functions
and classes, walk-order imports, plain-name global assignments and the
tree complexity; on `SyntaxError` (raised by `ast.parse` before anything
is accumulated) return empty sequences, the formatted diagnostic and
complexity `0`; likewise for any other parse exception. -/
def parse_python (pyParse : String → Except PyParseError PyModule)
    (code : String) : ParseResult :=
  match pyParse code with
  | .ok m =>
    { language := "python"
      functions := m.body.filterMap (fun s =>
        match s with
        | .funcDef f => some (extract_python_function f (pyLinesStr code) none)
        | _ => none)
      classes := m.body.filterMap (fun s =>
        match s with
        | .classDef c => some (extract_python_class c (pyLinesStr code))
        | _ => none)
      imports := m.importsWalk
      global_variables := m.body.flatMap (fun s =>
        match s with
        | .assign names lineno v => names.map (fun n => ⟨n, lineno, v⟩)
        | _ => [])
      errors := []
      complexity_score := (calculate_complexity m.walkTree : ℚ) }
  | .error (.syntaxError lineno msg) =>
    { language := "python", functions := [], classes := [], imports := []
      global_variables := []
      errors := ["Syntax error at line " ++ toString lineno ++ ": " ++ msg]
      complexity_score := 0 }
  | .error (.otherError msg) =>
    { language := "python", functions := [], classes := [], imports := []
      global_variables := []
      errors := ["Parse error: " ++ msg]
      complexity_score := 0 }

-- ======================================================================
-- code_parser.py : regex-based JavaScript/Java extractors
-- ======================================================================

/-- One regex match of the JavaScript function patterns
(code_parser.py lines 270-279): captured name, `match.start()` and
`match.group(0)`. -/
structure JsFuncMatch where
  name : String
  matchStart : Nat
  matchedText : String
deriving Repr, DecidableEq

/-- One regex match of the JavaScript class pattern
(code_parser.py lines 305-309). -/
structure JsClassMatch where
  name : String
  base : Option String
  matchStart : Nat
deriving Repr, DecidableEq

/-- One regex match of the Java class pattern
(code_parser.py lines 344-349). -/
structure JavaClassMatch where
  name : String
  base : Option String
  interfaces : Option String
  matchStart : Nat
deriving Repr, DecidableEq

/-- One regex match of the Java method pattern
(code_parser.py lines 369-374). -/
structure JavaMethodMatch where
  returnType : String
  name : String
  params : String
  matchStart : Nat
deriving Repr, DecidableEq

/-- Substring test (Python's `in` operator on strings). -/
def hasSubstr (kw : List Char) : List Char → Bool
  | [] => kw.isEmpty
  | c :: rest => kw.isPrefixOf (c :: rest) || hasSubstr kw rest

/-- The 1-based line of a character offset:
`code[:pos].count('\n') + 1`. -/
def lineOfPos (code : List Char) (pos : Nat) : Nat :=
  (code.take pos).count '\n' + 1

/-- Python `code.find(ch, start)` returning an index, `none` for -1. -/
def findCharFrom (code : List Char) (target : Char) (start : Nat) : Option Nat :=
  match (code.drop start).findIdx? (· == target) with
  | some i => some (start + i)
  | none => none

/-- Scanning loop of `_find_matching_brace` (code_parser.py lines
426-436): absolute index of the brace closing the block opened at or
after the scan start, tracked with a depth counter. -/
def findBraceAux : List Char → Nat → Int → Option Nat
  | [], _, _ => none
  | c :: rest, i, depth =>
    if c == '{' then findBraceAux rest (i + 1) (depth + 1)
    else if c == '}' then
      if depth - 1 = 0 then some i else findBraceAux rest (i + 1) (depth - 1)
    else findBraceAux rest (i + 1) depth

/-- Embedding of `CodeParser._find_matching_brace`: the block text and
the index of its closing brace; unterminated blocks consume to
end-of-text. -/
def find_matching_brace (code : List Char) (start : Nat) : List Char × Nat :=
  match findBraceAux (code.drop start) start 0 with
  | some i => ((code.drop start).take (i + 1 - start), i)
  | none => (code.drop start, code.length)

/-- FunctionInfo assembly of `_parse_javascript`
(code_parser.py lines 276-302). -/
def jsFunctionFromMatch (code : List Char) (m : JsFuncMatch) : FunctionInfo :=
  let line_num := lineOfPos code m.matchStart
  let bodyEnd : String × Nat :=
    match findCharFrom code '{' m.matchStart with
    | some bodyStart =>
      let r := find_matching_brace code bodyStart
      (String.mk r.1, lineOfPos code r.2)
    | none => ("", line_num)
  { name := m.name, start_line := line_num, end_line := bodyEnd.2
    signature := m.matchedText, parameters := [], return_type := none
    body := bodyEnd.1, decorators := [], docstring := none
    is_async := hasSubstr "async".data m.matchedText.data
    is_method := false, class_name := none }

/-- ClassInfo assembly of `_parse_javascript`
(code_parser.py lines 305-320): end line equals start line. -/
def jsClassFromMatch (code : List Char) (m : JsClassMatch) : ClassInfo :=
  let line_num := lineOfPos code m.matchStart
  { name := m.name, start_line := line_num, end_line := line_num
    bases := match m.base with | some b => [b] | none => []
    methods := [], attributes := [], docstring := none, decorators := [] }

/-- Python `str.split()` with no separator: maximal nonempty runs of
non-whitespace. -/
def splitWhitespace : List Char → List (List Char)
  | [] => []
  | c :: rest =>
    if isPySpace c then splitWhitespace rest
    else
      (c :: rest.takeWhile (fun x => !(isPySpace x))) ::
        splitWhitespace (rest.dropWhile (fun x => !(isPySpace x)))
termination_by s => s.length
decreasing_by
  · simp only [List.length_cons]
    omega
  · simp only [List.length_cons]
    have h : (rest.dropWhile (fun x => !(isPySpace x))).length ≤ rest.length :=
      (List.dropWhile_suffix _).length_le
    omega

/-- Parameter parsing of `_parse_java` (code_parser.py lines 380-390):
comma-separated entries, whitespace-split; entries with at least two
words become `{name: last word, type: the rest joined}`. -/
def javaParamsOf (params : String) : List ParamInfo :=
  if (pyStrip params.data).isEmpty then []
  else
    (splitOnChar ',' params.data).filterMap (fun p =>
      let parts := splitWhitespace (pyStrip p)
      match parts.reverse with
      | [] => none
      | lastPart :: front =>
        if front.isEmpty then none
        else some { name := String.mk lastPart,
                    type := some (String.intercalate " "
                      (front.reverse.map (fun w => String.mk w))),
                    default := none })

/-- Method assembly of `_parse_java` (code_parser.py lines 368-402):
matches whose name is a control keyword are skipped; end line equals
start line (`end_line=line_num`). -/
def javaFunctionFromMatch (code : List Char) (m : JavaMethodMatch) :
    Option FunctionInfo :=
  if m.name ∈ ["if", "while", "for", "switch", "try", "catch"] then none
  else
    let line_num := lineOfPos code m.matchStart
    let fi : FunctionInfo :=
      { name := m.name, start_line := line_num, end_line := line_num,
        signature := m.returnType ++ " " ++ m.name ++ "(" ++ m.params ++ ")",
        parameters := javaParamsOf m.params, return_type := some m.returnType,
        body := "", decorators := [], docstring := none,
        is_async := false, is_method := false, class_name := none }
    some fi

/-- Class assembly of `_parse_java` (code_parser.py lines 343-366):
single optional base plus the comma-split, stripped interface names. -/
def javaClassFromMatch (code : List Char) (m : JavaClassMatch) : ClassInfo :=
  let line_num := lineOfPos code m.matchStart
  let bases := (match m.base with | some b => [b] | none => []) ++
    (match m.interfaces with
     | some ifs => (splitOnChar ',' ifs.data).map (fun i => String.mk (pyStrip i))
     | none => [])
  { name := m.name, start_line := line_num, end_line := line_num, bases := bases
    methods := [], attributes := [], docstring := none, decorators := [] }

-- ======================================================================
-- code_parser.py : dispatch, fallback and metrics
-- ======================================================================

/-- Oracle bundle for the external engines `CodeParser` drives: the
CPython `ast` parser and the `re` regex searches of the
JavaScript/Java extractors.  The repository's own processing of the
oracle outputs is embedded concretely. -/
structure ParserOracle where
  pyParse : String → Except PyParseError PyModule
  jsImports : String → List String
  jsFuncMatches : String → List JsFuncMatch
  jsClassMatches : String → List JsClassMatch
  javaImports : String → List String
  javaClassMatches : String → List JavaClassMatch
  javaMethodMatches : String → List JavaMethodMatch

/-- Embedding of `CodeParser._parse_javascript`
(code_parser.py lines 256-330): regex-extracted imports, functions and
classes, no errors, heuristic complexity, and the language tag fixed at
`'javascript'` (also for the typescript alias). -/
def parse_javascript (ctx : ParserOracle) (code : String) : ParseResult :=
  { language := "javascript"
    functions := (ctx.jsFuncMatches code).map (jsFunctionFromMatch code.data)
    classes := (ctx.jsClassMatches code).map (jsClassFromMatch code.data)
    imports := ctx.jsImports code
    global_variables := []
    errors := []
    complexity_score := (estimate_complexity code : ℚ) }

/-- Embedding of `CodeParser._parse_java`
(code_parser.py lines 332-412). -/
def parse_java (ctx : ParserOracle) (code : String) : ParseResult :=
  { language := "java"
    functions := (ctx.javaMethodMatches code).filterMap (javaFunctionFromMatch code.data)
    classes := (ctx.javaClassMatches code).map (javaClassFromMatch code.data)
    imports := ctx.javaImports code
    global_variables := []
    errors := []
    complexity_score := (estimate_complexity code : ℚ) }

/-- Embedding of `CodeParser._parse_generic`
(code_parser.py lines 414-424): empty structural model, one diagnostic
naming the language, heuristic complexity. -/
def parse_generic (code : String) (language : String) : ParseResult :=
  { language := language
    functions := [], classes := [], imports := [], global_variables := []
    errors := ["No specific parser for " ++ language ++ ", using generic analysis"]
    complexity_score := (estimate_complexity code : ℚ) }

/-- ASCII lowering of one character (the fragment of Python
`str.lower()` relevant to language tags). -/
def charLower (c : Char) : Char :=
  if 65 ≤ c.toNat ∧ c.toNat ≤ 90 then Char.ofNat (c.toNat + 32) else c

/-- Python `language.lower()` on the language tag. -/
def strLower (s : String) : String := String.mk (s.data.map charLower)

/-- Embedding of `CodeParser.parse` (code_parser.py lines 52-68): the
tag is lowercased, then dispatched through the `self.parsers` mapping
(`python`, `javascript`, `typescript` → the JavaScript extractor,
`java`), with the regex fallback for everything else. -/
def parseCode (ctx : ParserOracle) (code : String) (language : String) : ParseResult :=
  let lang := strLower language
  if lang = "python" then parse_python ctx.pyParse code
  else if lang = "javascript" then parse_javascript ctx code
  else if lang = "typescript" then parse_javascript ctx code
  else if lang = "java" then parse_java ctx code
  else parse_generic code lang

/-- The metrics record returned by `CodeParser.get_code_metrics`
(code_parser.py lines 449-472). -/
structure CodeMetrics where
  total_lines : ℤ
  code_lines : ℤ
  blank_lines : ℤ
  comment_lines : ℤ
  functions_count : ℤ
  classes_count : ℤ
  imports_count : ℤ
  complexity_score : ℚ
  avg_function_length : ℚ
deriving Repr, DecidableEq

/-- Embedding of `CodeParser._avg_function_length`
(code_parser.py lines 474-479). -/
def avg_function_length (functions : List FunctionInfo) : ℚ :=
  if functions.isEmpty then 0
  else (((functions.map (fun f => (f.end_line : ℤ) - f.start_line + 1)).sum : ℤ) : ℚ)
    / (functions.length : ℚ)

/-- Embedding of `CodeParser.get_code_metrics`
(code_parser.py lines 449-472): line counts over `code.split('\n')`
(blank = whitespace-only, comment = trimmed line starting with a
recognized marker, code = total - blank - comment) plus counts from the
parse. -/
def get_code_metrics (ctx : ParserOracle) (code : String) (language : String) :
    CodeMetrics :=
  let lines := pyLines code
  let total_lines : ℤ := lines.length
  let blank_lines : ℤ := (lines.filter isBlankLine).length
  let comment_lines : ℤ := (lines.filter isCommentLine).length
  let code_lines : ℤ := total_lines - blank_lines - comment_lines
  let pr := parseCode ctx code language
  { total_lines := total_lines
    code_lines := code_lines
    blank_lines := blank_lines
    comment_lines := comment_lines
    functions_count := pr.functions.length
    classes_count := pr.classes.length
    imports_count := pr.imports.length
    complexity_score := pr.complexity_score
    avg_function_length :=
      if pr.functions.isEmpty then 0 else avg_function_length pr.functions }

-- ======================================================================
-- Concrete sample inputs for the witnesses
-- ======================================================================

/-- An empty module (e.g. the parse of the empty string). -/
def emptyModule : PyModule := ⟨[], [], .otherNode []⟩

/-- Oracle whose Python parse always succeeds with the empty module and
whose regex searches find nothing. -/
def sampleOracle : ParserOracle :=
  ⟨fun _ => .ok emptyModule, fun _ => [], fun _ => [], fun _ => [],
   fun _ => [], fun _ => [], fun _ => []⟩

/-- Oracle whose Python parse fails with a `SyntaxError` at line 3. -/
def failingOracle : ParserOracle :=
  { sampleOracle with pyParse := fun _ => .error (.syntaxError 3 "invalid syntax") }

/-- Module whose tree is `demoTree` (`if a and b: pass`). -/
def demoModule : PyModule := ⟨[], [], demoTree⟩

/-- Oracle whose Python parse returns `demoModule`. -/
def demoTreeOracle : ParserOracle :=
  { sampleOracle with pyParse := fun _ => .ok demoModule }

/-- A concrete function node: `def add(x: int, y = 0) -> int` spanning
lines 1-2. -/
def demoFunc : PyFunctionDef :=
  { name := "add", lineno := 1, end_lineno := 2
    args := { args := [⟨"x", some "int"⟩, ⟨"y", none⟩], defaults := ["0"] }
    returns := some "int", decorator_list := [], docstring := none
    is_async := false }

/-- A concrete class node owning `demoFunc` as its only method. -/
def demoClass : PyClassDef :=
  { name := "Demo", lineno := 1, end_lineno := 3, bases := []
    body := [.funcItem demoFunc], docstring := none, decorator_list := [] }

-- ======================================================================
-- Theorems
-- ======================================================================

theorem foldl_add_map {α M : Type} [AddCommMonoid M] (g : α → M) (l : List α) (a : M) :
    l.foldl (fun acc x => acc + g x) a = a + (l.map g).sum := by
  induction l generalizing a with
  | nil => simp
  | cons x xs ih => simp [ih, add_assoc]

theorem round3_nonneg {q : ℚ} (h : 0 ≤ q) : 0 ≤ round3 q := by
  unfold round3
  have h1 : (0 : ℤ) ≤ round (q * 1000) := by
    rw [round_eq]
    exact Int.floor_nonneg.mpr (by nlinarith)
  positivity

theorem round3_le_one {q : ℚ} (h : q ≤ 1) : round3 q ≤ 1 := by
  unfold round3
  have h1 : round (q * 1000) ≤ 1000 := by
    rw [round_eq]
    have : (⌊q * 1000 + 1 / 2⌋ : ℤ) < 1001 := by
      rw [Int.floor_lt]
      push_cast
      nlinarith
    omega
  have h2 : ((round (q * 1000) : ℤ) : ℚ) ≤ 1000 := by exact_mod_cast h1
  linarith

/-- C1: for flagged sections whose severities are drawn from the five
documented tags and an ML probability in `[0,1]`, the fused prediction's
`risk_score` equals `round(clamp(0.4*ml + 0.6*min(1, Σweights/5), 0, 1), 3)`
and lies in `[0,1]`. -/
theorem fuse_risk_score_formula (flagged : List FlaggedSection) (ml : ℚ)
    (tr : Bool) (issues : List String)
    (hsev : ∀ s ∈ flagged,
      s.severity ∈ ["error", "security", "warning", "info", "suggestion"])
    (hml0 : 0 ≤ ml) (hml1 : ml ≤ 1) :
    (fuseScores flagged ml tr issues).risk_score =
      round3 (min 1 (max 0 (2/5 * ml + 3/5 * claimPatternScore flagged))) ∧
    0 ≤ (fuseScores flagged ml tr issues).risk_score ∧
    (fuseScores flagged ml tr issues).risk_score ≤ 1 := by
  have hfold : flagged.foldl (fun acc s => acc + sevWeight s.severity) 0 =
      ((flagged.map fun s => sevWeight s.severity).sum) := by
    simpa using foldl_add_map (fun s => sevWeight s.severity) flagged 0
  have hrs : (fuseScores flagged ml tr issues).risk_score =
      round3 (clampedRisk flagged ml) := rfl
  have hcl : clampedRisk flagged ml =
      min 1 (max 0 (2/5 * ml + 3/5 * claimPatternScore flagged)) := by
    simp only [clampedRisk, claimPatternScore, hfold]
  refine ⟨?_, ?_, ?_⟩
  · rw [hrs, hcl]
  · rw [hrs, hcl]
    exact round3_nonneg (le_min (by norm_num) (le_max_left 0 _))
  · rw [hrs, hcl]
    exact round3_le_one (min_le_left _ _)

/-- C1 witness: the formula and bounds at a concrete input (one error
section, ml probability 1/2). -/
theorem fuse_risk_score_formula_witness :
    (fuseScores [errorSection] (1/2) true []).risk_score =
      round3 (min 1 (max 0 (2/5 * (1/2) + 3/5 * claimPatternScore [errorSection]))) ∧
    0 ≤ (fuseScores [errorSection] (1/2) true []).risk_score ∧
    (fuseScores [errorSection] (1/2) true []).risk_score ≤ 1 :=
  fuse_risk_score_formula [errorSection] (1/2) true []
    (by intro s hs; simp at hs; subst hs; simp [errorSection])
    (by norm_num) (by norm_num)

/-- Five error-severity flagged sections (e.g. five bare-except hits),
giving a saturated pattern score of `min(1, 5/5) = 1`. -/
def fiveErrors : List FlaggedSection := List.replicate 5 errorSection

/-- C2 counterexample: with five error-severity sections and classifier
probability `0.249`, the clamped combined score is `0.6996`, so the code
assigns level "medium", yet the returned (rounded) `risk_score` is `0.7`.
The returned record therefore violates "risk_level = high iff
risk_score ≥ 0.7" as stated on the returned score. -/
theorem risk_level_rounding_mismatch :
    7/10 ≤ (fuseScores fiveErrors (249/1000) true []).risk_score ∧
    (fuseScores fiveErrors (249/1000) true []).risk_level ≠ "high" := by
  have hclamp : clampedRisk fiveErrors (249/1000) = 1749/2500 := by
    simp only [clampedRisk, fiveErrors, errorSection, List.replicate, List.foldl, sevWeight]
    norm_num
  have hround : round3 ((1749 : ℚ)/2500) = 7/10 := by
    unfold round3
    have h1 : ((1749 : ℚ)/2500 * 1000) = 6996/10 := by norm_num
    have h2 : round ((6996 : ℚ)/10) = 700 := by
      rw [round_eq]
      have h3 : ((6996 : ℚ)/10 + 1/2) = 7001/10 := by norm_num
      rw [h3]
      have h4 : ⌊(7001 : ℚ)/10⌋ = 700 := by
        rw [Int.floor_eq_iff]
        norm_num
      exact h4
    rw [h1, h2]
    norm_num
  constructor
  · have hrs : (fuseScores fiveErrors (249/1000) true []).risk_score =
        round3 (clampedRisk fiveErrors (249/1000)) := rfl
    rw [hrs, hclamp, hround]
  · have hrl : (fuseScores fiveErrors (249/1000) true []).risk_level =
        (if clampedRisk fiveErrors (249/1000) ≥ 7/10 then "high"
         else if clampedRisk fiveErrors (249/1000) ≥ 2/5 then "medium"
         else "low") := rfl
    rw [hrl, hclamp]
    norm_num
    decide

/-- C2 (amended): for every combination of flagged sections and
classifier probability in `[0,1]`, the returned `risk_score` is in
`[0,1]`, and `risk_level` is consistent with the 0.7/0.4 thresholds
applied to the clamped PRE-ROUNDING combined score `clampedRisk` (the
code assigns the level before rounding the returned score, so on the
returned, rounded score the equivalence can fail near the cutoffs). -/
theorem risk_level_thresholds_preround (flagged : List FlaggedSection) (ml : ℚ)
    (tr : Bool) (issues : List String) (hml0 : 0 ≤ ml) (hml1 : ml ≤ 1) :
    0 ≤ (fuseScores flagged ml tr issues).risk_score ∧
    (fuseScores flagged ml tr issues).risk_score ≤ 1 ∧
    ((fuseScores flagged ml tr issues).risk_level = "high" ↔
      7/10 ≤ clampedRisk flagged ml) ∧
    ((fuseScores flagged ml tr issues).risk_level = "medium" ↔
      2/5 ≤ clampedRisk flagged ml ∧ clampedRisk flagged ml < 7/10) ∧
    ((fuseScores flagged ml tr issues).risk_level = "low" ↔
      clampedRisk flagged ml < 2/5) := by
  have hrs : (fuseScores flagged ml tr issues).risk_score =
      round3 (clampedRisk flagged ml) := rfl
  have hrl : (fuseScores flagged ml tr issues).risk_level =
      (if clampedRisk flagged ml ≥ 7/10 then "high"
       else if clampedRisk flagged ml ≥ 2/5 then "medium"
       else "low") := rfl
  refine ⟨?_, ?_, ?_, ?_, ?_⟩
  · rw [hrs]
    exact round3_nonneg (le_min (by norm_num) (le_max_left 0 _))
  · rw [hrs]
    exact round3_le_one (min_le_left _ _)
  · rw [hrl]
    rcases le_or_lt ((7 : ℚ)/10) (clampedRisk flagged ml) with h1 | h1
    · rw [if_pos h1]
      simp [h1]
    · rw [if_neg (not_le.mpr h1)]
      rcases le_or_lt ((2 : ℚ)/5) (clampedRisk flagged ml) with h2 | h2
      · rw [if_pos h2]
        constructor
        · intro h; exact absurd h (by decide)
        · intro h; linarith
      · rw [if_neg (not_le.mpr h2)]
        constructor
        · intro h; exact absurd h (by decide)
        · intro h; linarith
  · rw [hrl]
    rcases le_or_lt ((7 : ℚ)/10) (clampedRisk flagged ml) with h1 | h1
    · rw [if_pos h1]
      constructor
      · intro h; exact absurd h (by decide)
      · rintro ⟨h2, h3⟩; linarith
    · rw [if_neg (not_le.mpr h1)]
      rcases le_or_lt ((2 : ℚ)/5) (clampedRisk flagged ml) with h2 | h2
      · rw [if_pos h2]
        exact ⟨fun _ => ⟨h2, h1⟩, fun _ => rfl⟩
      · rw [if_neg (not_le.mpr h2)]
        constructor
        · intro h; exact absurd h (by decide)
        · rintro ⟨h3, _⟩; linarith
  · rw [hrl]
    rcases le_or_lt ((7 : ℚ)/10) (clampedRisk flagged ml) with h1 | h1
    · rw [if_pos h1]
      constructor
      · intro h; exact absurd h (by decide)
      · intro h; linarith
    · rw [if_neg (not_le.mpr h1)]
      rcases le_or_lt ((2 : ℚ)/5) (clampedRisk flagged ml) with h2 | h2
      · rw [if_pos h2]
        constructor
        · intro h; exact absurd h (by decide)
        · intro h; linarith
      · rw [if_neg (not_le.mpr h2)]
        exact ⟨fun _ => h2, fun _ => rfl⟩

/-- C2 witness: the amended statement instantiated at one error section
and classifier probability 0.249. -/
theorem risk_level_thresholds_preround_witness :
    0 ≤ (fuseScores [errorSection] (249/1000) true []).risk_score ∧
    (fuseScores [errorSection] (249/1000) true []).risk_score ≤ 1 ∧
    ((fuseScores [errorSection] (249/1000) true []).risk_level = "high" ↔
      7/10 ≤ clampedRisk [errorSection] (249/1000)) ∧
    ((fuseScores [errorSection] (249/1000) true []).risk_level = "medium" ↔
      2/5 ≤ clampedRisk [errorSection] (249/1000) ∧
        clampedRisk [errorSection] (249/1000) < 7/10) ∧
    ((fuseScores [errorSection] (249/1000) true []).risk_level = "low" ↔
      clampedRisk [errorSection] (249/1000) < 2/5) :=
  risk_level_thresholds_preround [errorSection] (249/1000) true []
    (by norm_num) (by norm_num)

/-- C7: the classifier step is a total function of its inputs (the Python
code never raises: `_ml_classify` returns `0.5` both when untrained and
when the library call fails).  When the component is untrained it returns
the neutral constant `0.5` and the resulting prediction's confidence is
`0.5`; when trained it returns the model's class-1 probability and the
confidence is `0.8`. -/
theorem classifier_neutral_fallback (st : ClassifierState) (code : String) :
    (st.is_trained = false →
      mlClassify st code = 1/2 ∧ (analyzeDefects st code).confidence = 1/2) ∧
    (st.is_trained = true →
      mlClassify st code = st.predictProba1 code ∧
      (analyzeDefects st code).confidence = 4/5) := by
  have hconf : (analyzeDefects st code).confidence =
      (if st.is_trained then (4 : ℚ)/5 else 1/2) := rfl
  constructor
  · intro h
    constructor
    · simp [mlClassify, h]
    · rw [hconf, h]
      simp
  · intro h
    constructor
    · simp [mlClassify, h]
    · rw [hconf, h]
      simp

/-- C7 witness: the untrained clause at `untrainedState` and the trained
clause at `trainedState`, on a concrete input. -/
theorem classifier_neutral_fallback_witness :
    (mlClassify untrainedState "x = eval(s)" = 1/2 ∧
      (analyzeDefects untrainedState "x = eval(s)").confidence = 1/2) ∧
    (mlClassify trainedState "x = eval(s)" = trainedState.predictProba1 "x = eval(s)" ∧
      (analyzeDefects trainedState "x = eval(s)").confidence = 4/5) :=
  ⟨(classifier_neutral_fallback untrainedState "x = eval(s)").1 rfl,
   (classifier_neutral_fallback trainedState "x = eval(s)").2 rfl⟩

-- ----------------------------------------------------------------------
-- Helper lemmas on the walk sums
-- ----------------------------------------------------------------------

mutual
theorem walkSum_split (t : PyNode) :
    walkSum t = branchBoolSum t + boolOpCount t := by
  cases t with
  | ifNode cs =>
    simp only [walkSum, branchBoolSum, boolOpCount, walkSumList_split cs]; ring
  | whileNode cs =>
    simp only [walkSum, branchBoolSum, boolOpCount, walkSumList_split cs]; ring
  | forNode cs =>
    simp only [walkSum, branchBoolSum, boolOpCount, walkSumList_split cs]; ring
  | exceptHandlerNode cs =>
    simp only [walkSum, branchBoolSum, boolOpCount, walkSumList_split cs]; ring
  | boolOpNode op vs =>
    simp only [walkSum, branchBoolSum, boolOpCount, walkSumList_split vs]; ring
  | otherNode cs =>
    simp only [walkSum, branchBoolSum, boolOpCount, walkSumList_split cs]

theorem walkSumList_split (ts : List PyNode) :
    walkSumList ts = branchBoolSumList ts + boolOpCountList ts := by
  cases ts with
  | nil => simp only [walkSumList, branchBoolSumList, boolOpCountList]; ring
  | cons n ns =>
    simp only [walkSumList, branchBoolSumList, boolOpCountList, walkSum_split n,
      walkSumList_split ns]; ring
end

mutual
theorem walkSum_nonneg (t : PyNode) : 0 ≤ walkSum t := by
  cases t with
  | ifNode cs =>
    have h := walkSumList_nonneg cs; simp only [walkSum]; linarith
  | whileNode cs =>
    have h := walkSumList_nonneg cs; simp only [walkSum]; linarith
  | forNode cs =>
    have h := walkSumList_nonneg cs; simp only [walkSum]; linarith
  | exceptHandlerNode cs =>
    have h := walkSumList_nonneg cs; simp only [walkSum]; linarith
  | boolOpNode op vs =>
    have h := walkSumList_nonneg vs
    have hl : (0 : ℤ) ≤ (vs.length : ℤ) := Int.natCast_nonneg _
    simp only [walkSum]; linarith
  | otherNode cs =>
    have h := walkSumList_nonneg cs; simp only [walkSum]; linarith

theorem walkSumList_nonneg (ts : List PyNode) : 0 ≤ walkSumList ts := by
  cases ts with
  | nil => simp only [walkSumList]; omega
  | cons n ns =>
    have h1 := walkSum_nonneg n
    have h2 := walkSumList_nonneg ns
    simp only [walkSumList]; linarith
end

theorem walkSumList_append (a b : List PyNode) :
    walkSumList (a ++ b) = walkSumList a + walkSumList b := by
  induction a with
  | nil => simp only [List.nil_append, walkSumList]; ring
  | cons n ns ih =>
    simp only [List.cons_append, walkSumList]
    rw [show ns.append b = ns ++ b from rfl, ih]
    ring

-- ----------------------------------------------------------------------
-- Helper lemmas on countOcc (Python str.count)
-- ----------------------------------------------------------------------

theorem countOcc_nil (kw : List Char) :
    countOcc kw [] = if kw.isEmpty then 1 else 0 := by
  simp [countOcc]

theorem countOcc_cons (kw : List Char) (c : Char) (rest : List Char) :
    countOcc kw (c :: rest) =
      if kw ≠ [] ∧ kw.isPrefixOf (c :: rest) then
        1 + countOcc kw (List.drop kw.length (c :: rest))
      else (if kw.isEmpty then 1 else 0) + countOcc kw rest := by
  rw [countOcc]

theorem countOcc_eq_zero_of_short (kw s : List Char)
    (hk : kw ≠ []) (h : s.length < kw.length) : countOcc kw s = 0 := by
  induction s with
  | nil => simp [countOcc_nil, List.isEmpty_iff, hk]
  | cons c rest ih =>
    rw [countOcc_cons]
    have hnp : ¬ (kw ≠ [] ∧ kw.isPrefixOf (c :: rest)) := by
      rintro ⟨-, hp⟩
      have hle := (List.isPrefixOf_iff_prefix.mp hp).length_le
      simp only [List.length_cons] at hle h
      omega
    rw [if_neg hnp]
    have hkE : kw.isEmpty = false := by simp [List.isEmpty_iff, hk]
    have hrest : countOcc kw rest = 0 := by
      apply ih
      simp only [List.length_cons] at h
      omega
    simp [hkE, hrest]

theorem countOcc_nil_pos (t : List Char) : 1 ≤ countOcc [] t := by
  induction t with
  | nil => simp [countOcc_nil]
  | cons c rest ih =>
    rw [countOcc_cons]
    rw [if_neg (by simp)]
    simp only [List.isEmpty_nil, if_true]
    omega

theorem countOcc_le_append (kw : List Char) :
    ∀ (n : Nat) (s t : List Char), s.length = n →
      countOcc kw s ≤ countOcc kw (s ++ t) := by
  intro n
  induction n using Nat.strong_induction_on with
  | _ n ih =>
    intro s t hs
    cases s with
    | nil =>
      rw [List.nil_append, countOcc_nil]
      by_cases hk : kw.isEmpty
      · rw [if_pos hk]
        have hkw : kw = [] := List.isEmpty_iff.mp hk
        subst hkw
        exact countOcc_nil_pos t
      · rw [if_neg hk]
        exact Nat.zero_le _
    | cons c rest =>
      rw [List.cons_append, countOcc_cons, countOcc_cons]
      by_cases hpre : kw ≠ [] ∧ kw.isPrefixOf (c :: rest)
      · have hk : kw ≠ [] := hpre.1
        have hps : kw <+: (c :: rest) := List.isPrefixOf_iff_prefix.mp hpre.2
        have hpst : kw.isPrefixOf (c :: (rest ++ t)) := by
          apply List.isPrefixOf_iff_prefix.mpr
          have h2 : (c :: rest) <+: ((c :: rest) ++ t) := List.prefix_append _ _
          simpa using hps.trans h2
        rw [if_pos ⟨hk, hpre.2⟩, if_pos ⟨hk, hpst⟩]
        have hklen : kw.length ≤ (c :: rest).length := hps.length_le
        have hdrop : List.drop kw.length (c :: (rest ++ t)) =
            List.drop kw.length (c :: rest) ++ t := by
          have h3 : ((c :: rest) ++ t).drop kw.length =
              (c :: rest).drop kw.length ++ t :=
            List.drop_append_of_le_length hklen
          simpa using h3
        rw [hdrop]
        have hk1 : 1 ≤ kw.length := by
          cases kw with
          | nil => exact absurd rfl hk
          | cons a l => simp
        have hlt : (List.drop kw.length (c :: rest)).length < n := by
          simp only [List.length_drop, List.length_cons]
          simp only [List.length_cons] at hs
          omega
        exact Nat.add_le_add_left
          (ih _ hlt (List.drop kw.length (c :: rest)) t rfl) 1
      · rw [if_neg hpre]
        by_cases hpret : kw ≠ [] ∧ kw.isPrefixOf (c :: (rest ++ t))
        · rw [if_pos hpret]
          have hk : kw ≠ [] := hpret.1
          have hkE : kw.isEmpty = false := by simp [List.isEmpty_iff, hk]
          have hplen : (c :: rest).length < kw.length := by
            by_contra hle
            push_neg at hle
            apply hpre
            refine ⟨hk, ?_⟩
            have hp := List.isPrefixOf_iff_prefix.mp hpret.2
            have heq : kw = ((c :: rest) ++ t).take kw.length := by
              simpa using List.prefix_iff_eq_take.mp hp
            rw [List.take_append_of_le_length hle] at heq
            exact List.isPrefixOf_iff_prefix.mpr
              (heq ▸ List.take_prefix kw.length (c :: rest))
          have hrest : countOcc kw rest = 0 := by
            apply countOcc_eq_zero_of_short kw rest hk
            simp only [List.length_cons] at hplen
            omega
          simp [hkE, hrest]
        · rw [if_neg hpret]
          have hlt : rest.length < n := by
            simp only [List.length_cons] at hs
            omega
          exact Nat.add_le_add_left (ih rest.length hlt rest t rfl) _

theorem countOcc_le_append_all (kw s t : List Char) :
    countOcc kw s ≤ countOcc kw (s ++ t) :=
  countOcc_le_append kw s.length s t rfl

theorem sum_map_le_int {α : Type} (f g : α → ℤ) (l : List α)
    (h : ∀ x ∈ l, f x ≤ g x) : (l.map f).sum ≤ (l.map g).sum := by
  induction l with
  | nil => simp
  | cons a as ih =>
    simp only [List.map_cons, List.sum_cons]
    have h1 := h a (by simp)
    have h2 := ih (fun x hx => h x (by simp [hx]))
    linarith

theorem estimate_complexity_eq (code : String) :
    estimate_complexity code = min 100 ((1 + (controlFlowKeywords.map
      (fun kw => (countOcc kw.data code.data : ℤ))).sum) * 2) := by
  unfold estimate_complexity
  rw [foldl_add_map]

/-- C5: the complexity score is monotonic non-decreasing in the branching
constructs, on both paths.  Tree path: appending one more `If`
statement to a module body never lowers `_calculate_complexity`.
Heuristic path: appending any text (in particular one more conditional)
never lowers `_estimate_complexity`, since every keyword-occurrence
count is monotone under appending. -/
theorem complexity_monotone :
    (∀ (body cs : List PyNode),
      calculate_complexity (.otherNode body) ≤
        calculate_complexity (.otherNode (body ++ [.ifNode cs]))) ∧
    (∀ (code extra : String),
      estimate_complexity code ≤ estimate_complexity (code ++ extra)) := by
  constructor
  · intro body cs
    unfold calculate_complexity
    have h1 : walkSum (.otherNode body) ≤ walkSum (.otherNode (body ++ [.ifNode cs])) := by
      simp only [walkSum, walkSumList_append, walkSumList]
      have h2 := walkSumList_nonneg cs
      linarith
    exact min_le_min (le_refl 100) (by linarith)
  · intro code extra
    rw [estimate_complexity_eq, estimate_complexity_eq]
    have hdata : (code ++ extra).data = code.data ++ extra.data := rfl
    have hsum : (controlFlowKeywords.map (fun kw => (countOcc kw.data code.data : ℤ))).sum ≤
        (controlFlowKeywords.map (fun kw => (countOcc kw.data (code ++ extra).data : ℤ))).sum := by
      apply sum_map_le_int
      intro kw _
      rw [hdata]
      exact_mod_cast countOcc_le_append_all kw.data code.data extra.data
    exact min_le_min (le_refl 100) (by linarith)

/-- C3 counterexample: for the module `if a and b: pass` the parse
result's complexity score is 20 (raw 4: base 1, the `If`, N-1 = 1 for
the two-operand `BoolOp`, and 1 more for its `ast.And` operator node,
which `ast.walk` also visits), not the 15 the claimed formula (without
the operator-node increment) yields. -/
theorem complexity_boolop_extra_increment :
    (parse_python demoTreeOracle.pyParse "if a and b: pass").complexity_score ≠
      ((min 100 ((1 + branchBoolSum demoTree) * 5) : ℤ) : ℚ) := by
  have hscore : (parse_python demoTreeOracle.pyParse "if a and b: pass").complexity_score =
      ((calculate_complexity demoTree : ℤ) : ℚ) := rfl
  have hw : walkSum demoTree = 3 := by
    simp only [demoTree, walkSum, walkSumList]
    norm_num
  have h1 : calculate_complexity demoTree = 20 := by
    unfold calculate_complexity
    rw [hw]
    decide
  have hb : branchBoolSum demoTree = 2 := by
    simp only [demoTree, branchBoolSum, branchBoolSumList]
    norm_num
  rw [hscore, h1, hb]
  norm_num

/-- C3 (amended): for every successfully parsed Python input, the parse
result's complexity score is `min(100, raw * 5)` where `raw` is 1 plus
one for every conditional, loop and exception handler, plus N-1 for
every N-operand boolean combination, plus one more for every boolean
combination (its operator node, visited by the tree walk). -/
theorem parse_complexity_formula (pp : String → Except PyParseError PyModule)
    (code : String) (m : PyModule) (h : pp code = .ok m) :
    (parse_python pp code).complexity_score =
      ((min 100 ((1 + (branchBoolSum m.walkTree + boolOpCount m.walkTree)) * 5) : ℤ) : ℚ) := by
  have hscore : (parse_python pp code).complexity_score =
      ((calculate_complexity m.walkTree : ℤ) : ℚ) := by
    unfold parse_python
    rw [h]
  rw [hscore]
  unfold calculate_complexity
  rw [walkSum_split]

/-- C3 witness: the amended formula at the empty module. -/
theorem parse_complexity_formula_witness :
    (parse_python sampleOracle.pyParse "").complexity_score =
      ((min 100 ((1 + (branchBoolSum emptyModule.walkTree
        + boolOpCount emptyModule.walkTree)) * 5) : ℤ) : ℚ) :=
  parse_complexity_formula sampleOracle.pyParse "" emptyModule rfl

/-- C4 counterexample: on the empty-string input the line counts are NOT
all zero: `''.split('\n')` is `['']`, so `total_lines = 1` and
`blank_lines = 1`. -/
theorem metrics_empty_input_not_zero :
    ¬ ((get_code_metrics sampleOracle "" "text").total_lines = 0 ∧
       (get_code_metrics sampleOracle "" "text").blank_lines = 0 ∧
       (get_code_metrics sampleOracle "" "text").comment_lines = 0 ∧
       (get_code_metrics sampleOracle "" "text").code_lines = 0) := by
  intro hcl
  have h : (get_code_metrics sampleOracle "" "text").total_lines = 1 := rfl
  rw [h] at hcl
  exact absurd hcl.1 (by norm_num)

/-- C4 (amended): for every input and language the metrics satisfy
`code_lines + blank_lines + comment_lines = total_lines` (blank and
comment lines as the code classifies them, code lines their
difference); on the empty-string input, splitting produces one empty
line, so `total_lines = blank_lines = 1` and
`comment_lines = code_lines = 0`. -/
theorem metrics_line_sum (ctx : ParserOracle) (code lang : String) :
    ((get_code_metrics ctx code lang).code_lines
      + (get_code_metrics ctx code lang).blank_lines
      + (get_code_metrics ctx code lang).comment_lines
      = (get_code_metrics ctx code lang).total_lines) ∧
    (get_code_metrics ctx "" lang).total_lines = 1 ∧
    (get_code_metrics ctx "" lang).blank_lines = 1 ∧
    (get_code_metrics ctx "" lang).comment_lines = 0 ∧
    (get_code_metrics ctx "" lang).code_lines = 0 := by
  refine ⟨?_, rfl, rfl, rfl, rfl⟩
  have h : (get_code_metrics ctx code lang).code_lines =
      (get_code_metrics ctx code lang).total_lines
      - (get_code_metrics ctx code lang).blank_lines
      - (get_code_metrics ctx code lang).comment_lines := rfl
  omega

-- ----------------------------------------------------------------------
-- Helper lemmas for the parameter list construction
-- ----------------------------------------------------------------------

theorem map_name_zipWith_default (l : List ParamInfo) (ds : List String) :
    (List.zipWith (fun (p : ParamInfo) (d : String) =>
      { p with default := some d }) l ds).map ParamInfo.name
      = (l.take ds.length).map ParamInfo.name := by
  induction l generalizing ds with
  | nil => simp
  | cons p ps ih =>
    cases ds with
    | nil => simp
    | cons d rest => simp [ih]

theorem params_names (l : List ParamInfo) (ds : List String) :
    (l.take (l.length - ds.length) ++
      List.zipWith (fun (p : ParamInfo) (d : String) => { p with default := some d })
        (l.drop (l.length - ds.length)) ds).map ParamInfo.name
      = l.map ParamInfo.name := by
  rw [List.map_append, map_name_zipWith_default, ← List.map_append]
  congr 1
  rcases le_or_lt ds.length l.length with hle | hlt
  · have hdl : (l.drop (l.length - ds.length)).length ≤ ds.length := by
      simp only [List.length_drop]
      omega
    rw [List.take_of_length_le hdl, List.take_append_drop]
  · have ho : l.length - ds.length = 0 := by omega
    rw [ho, List.take_zero, List.nil_append, List.drop_zero]
    exact List.take_of_length_le (by omega)

/-- C6: every FunctionEntity built by the Python extractor has
`end_line ≥ start_line` (given the `ast` library's guarantee
`lineno ≤ end_lineno` on the node) and parameters in declaration order;
every method of an extracted class has `is_method = true` and
`class_name` equal to the owning class's name. -/
theorem python_entity_invariants (lines : List String) (node : PyFunctionDef)
    (cn : Option String) (cls : PyClassDef) (m : FunctionInfo)
    (hline : node.lineno ≤ node.end_lineno)
    (hm : m ∈ (extract_python_class cls lines).methods) :
    (extract_python_function node lines cn).start_line ≤
      (extract_python_function node lines cn).end_line ∧
    (extract_python_function node lines cn).parameters.map ParamInfo.name =
      node.args.args.map PyArg.arg ∧
    m.is_method = true ∧ m.class_name = some cls.name := by
  have hmm : m.is_method = true ∧ m.class_name = some cls.name := by
    simp only [extract_python_class] at hm
    obtain ⟨item, hitem, heq⟩ := List.mem_filterMap.mp hm
    cases item with
    | funcItem f =>
      injection heq with heq
      subst heq
      exact ⟨rfl, rfl⟩
    | attrItem n t l => simp at heq
    | otherItem => simp at heq
  refine ⟨hline, ?_, hmm.1, hmm.2⟩
  have h0 := params_names (node.args.args.map (fun a =>
    ({ name := a.arg, type := a.annot, default := none } : ParamInfo)))
    node.args.defaults
  have h1 : (extract_python_function node lines cn).parameters.map ParamInfo.name
      = (node.args.args.map (fun a =>
          ({ name := a.arg, type := a.annot, default := none } : ParamInfo))).map
            ParamInfo.name := h0
  rw [h1, List.map_map]
  rfl

/-- C6 witness: the invariants at the concrete nodes `demoFunc` (with a
tail default, parameters [x, y]) and `demoClass` (owning one method). -/
theorem python_entity_invariants_witness :
    (extract_python_function demoFunc [] none).start_line ≤
      (extract_python_function demoFunc [] none).end_line ∧
    (extract_python_function demoFunc [] none).parameters.map ParamInfo.name =
      demoFunc.args.args.map PyArg.arg ∧
    (extract_python_function demoFunc [] (some "Demo")).is_method = true ∧
    (extract_python_function demoFunc [] (some "Demo")).class_name = some "Demo" :=
  python_entity_invariants [] demoFunc none demoClass
    (extract_python_function demoFunc [] (some "Demo"))
    (by decide)
    (by simp [extract_python_class, demoClass])

/-- C8: for every language tag without a dedicated extractor
(after lowercasing, not python/javascript/typescript/java), `parse`
returns (never raises) the generic result: empty function/class/import/
global sequences, exactly one error string naming the (lowercased)
language, and the heuristic complexity `min(100, (1 + keyword count) * 2)`. -/
theorem parse_unsupported_language (ctx : ParserOracle) (code language : String)
    (h : strLower language ∉ (["python", "javascript", "typescript", "java"] : List String)) :
    parseCode ctx code language = parse_generic code (strLower language) ∧
    (parseCode ctx code language).functions = [] ∧
    (parseCode ctx code language).classes = [] ∧
    (parseCode ctx code language).imports = [] ∧
    (parseCode ctx code language).global_variables = [] ∧
    (parseCode ctx code language).errors =
      ["No specific parser for " ++ strLower language ++ ", using generic analysis"] ∧
    (parseCode ctx code language).complexity_score =
      ((min 100 ((1 + (controlFlowKeywords.map
        (fun kw => (countOcc kw.data code.data : ℤ))).sum) * 2) : ℤ) : ℚ) := by
  have h1 : strLower language ≠ "python" := by
    intro he; exact h (by rw [he]; simp)
  have h2 : strLower language ≠ "javascript" := by
    intro he; exact h (by rw [he]; simp)
  have h3 : strLower language ≠ "typescript" := by
    intro he; exact h (by rw [he]; simp)
  have h4 : strLower language ≠ "java" := by
    intro he; exact h (by rw [he]; simp)
  have hdisp : parseCode ctx code language = parse_generic code (strLower language) := by
    simp only [parseCode]
    rw [if_neg h1, if_neg h2, if_neg h3, if_neg h4]
  refine ⟨hdisp, ?_, ?_, ?_, ?_, ?_, ?_⟩ <;> rw [hdisp]
  · rfl
  · rfl
  · rfl
  · rfl
  · rfl
  · show ((estimate_complexity code : ℤ) : ℚ) = _
    rw [estimate_complexity_eq]

/-- C8 witness: the generic path at tag `ruby`. -/
theorem parse_unsupported_language_witness :
    parseCode sampleOracle "if x" "ruby" = parse_generic "if x" (strLower "ruby") ∧
    (parseCode sampleOracle "if x" "ruby").functions = [] ∧
    (parseCode sampleOracle "if x" "ruby").classes = [] ∧
    (parseCode sampleOracle "if x" "ruby").imports = [] ∧
    (parseCode sampleOracle "if x" "ruby").global_variables = [] ∧
    (parseCode sampleOracle "if x" "ruby").errors =
      ["No specific parser for " ++ strLower "ruby" ++ ", using generic analysis"] ∧
    (parseCode sampleOracle "if x" "ruby").complexity_score =
      ((min 100 ((1 + (controlFlowKeywords.map
        (fun kw => (countOcc kw.data "if x".data : ℤ))).sum) * 2) : ℤ) : ℚ) :=
  parse_unsupported_language sampleOracle "if x" "ruby" (by decide)

/-- C9: for every Python input on which `ast.parse` raises a
`SyntaxError`, the error is caught and does not propagate: the returned
result carries exactly the formatted `Syntax error at line L: msg`
diagnostic, complexity 0, and empty function/class (and import/global)
sequences. -/
theorem parse_python_syntax_error (pp : String → Except PyParseError PyModule)
    (code : String) (lineno : Nat) (msg : String)
    (h : pp code = .error (.syntaxError lineno msg)) :
    parse_python pp code =
      { language := "python", functions := [], classes := [], imports := [],
        global_variables := [],
        errors := ["Syntax error at line " ++ toString lineno ++ ": " ++ msg],
        complexity_score := 0 } := by
  unfold parse_python
  rw [h]

/-- C9 witness: the syntax-error path at a concrete failing oracle. -/
theorem parse_python_syntax_error_witness :
    parse_python failingOracle.pyParse "def f(:" =
      { language := "python", functions := [], classes := [], imports := [],
        global_variables := [],
        errors := ["Syntax error at line " ++ toString 3 ++ ": " ++ "invalid syntax"],
        complexity_score := 0 } :=
  parse_python_syntax_error failingOracle.pyParse "def f(:" 3 "invalid syntax" rfl

/-- C10: `parse` lowercases the tag before dispatch (casing variants of
a tag yield identical results), and the tag `typescript` dispatches to
the JavaScript extractor, whose result's `language` field is the
literal `javascript`, not the requested tag. -/
theorem parse_typescript_alias (ctx : ParserOracle) (code : String) :
    (∀ l1 l2 : String, strLower l1 = strLower l2 →
      parseCode ctx code l1 = parseCode ctx code l2) ∧
    parseCode ctx code "typescript" = parse_javascript ctx code ∧
    (parseCode ctx code "typescript").language = "javascript" := by
  have hts : strLower "typescript" = "typescript" := by decide
  have hdisp : parseCode ctx code "typescript" = parse_javascript ctx code := by
    simp only [parseCode, hts]
    rw [if_neg (show ¬ ("typescript" = "python") by decide),
      if_neg (show ¬ ("typescript" = "javascript") by decide)]
    simp
  refine ⟨?_, hdisp, ?_⟩
  · intro l1 l2 hl
    simp only [parseCode]
    rw [hl]
  · rw [hdisp]
    rfl

/-- C10 witness: `TypeScript` and `typescript` give the same result, and
its language tag is `javascript`. -/
theorem parse_typescript_alias_witness :
    parseCode sampleOracle "var x = 1" "TypeScript" =
      parseCode sampleOracle "var x = 1" "typescript" ∧
    (parseCode sampleOracle "var x = 1" "typescript").language = "javascript" :=
  ⟨(parse_typescript_alias sampleOracle "var x = 1").1 "TypeScript" "typescript" (by decide),
   (parse_typescript_alias sampleOracle "var x = 1").2.2⟩
